import Mathlib

/-!
Shallow embedding of the stack-trace capture and lazy "stack" accessor
subsystem of JSError (lib/VM/JSError.cpp): recordStackTrace,
getCallStackFunctionNames, the addDomain adjacency deduplication,
constructStackTraceString with its truncation policy, and the shared
errorStackGetter / errorStackSetter pair.

Conventions of the embedding:
- GC-heap allocation sites that can fail (ArrayStorage::create,
  ArrayStorage::push_back, PropStorage::create, PropStorage::resize) are
  driven by an explicit allocation oracle; a failing allocation sets the
  pending thrown value, mirroring how the runtime raises on OOM.
- ExecutionStatus mirrors the status enum; the pending thrown value after a
  call is threaded explicitly (runtime->clearThrownValue resets it).
- Types that live outside the given sources (StackFrame accessors, Domain,
  SymbolID, the debug-info lookup) are modelled from the spec where noted.
-/

namespace JSErrorVM

/-- Execution status of a runtime call: normal return or raised exception. -/
inductive ExecutionStatus where
  | returned
  | exception
deriving DecidableEq, Repr

/-- Values stored in the function-name list: each slot holds either a string
primitive or undefined (the slot is set to undefined when the callee has no
usable name). -/
inductive HValue where
  | undefined
  | string (s : String)
deriving DecidableEq, Repr

/-- Modelled from the spec: the debug-info table is consumed as an opaque
lookup from bytecode offset to (filename, line, column); the DebugInfo
implementation is not part of the given sources. -/
structure DebugSourceLocation where
  filename : String
  line : Nat
  column : Nat
deriving DecidableEq, Repr

/-- A code block (compiled function). domainId identifies the owning Domain
reached through getRuntimeModule()->getDomainUnsafe(). nameValid mirrors
getName().isValid(); name is the string the identifier table yields for the
name symbol. debugLocs models getDebugSourceLocationsOffset plus
getLocationForAddress as one optional lookup table; sourceURL and
virtualOffset mirror the RuntimeModule sourceURL and getVirtualOffset. -/
structure CodeBlock where
  domainId : Nat
  nameValid : Bool
  name : String
  debugLocs : Option (List (Nat × DebugSourceLocation))
  sourceURL : String
  virtualOffset : Nat
deriving DecidableEq, Repr

/-- One entry of the captured trace: StackTraceInfo is a (CodeBlock pointer,
bytecode offset) pair; a null code block marks a native frame. -/
structure StackTraceInfo where
  codeBlock : Option CodeBlock
  bytecodeOffset : Nat
deriving DecidableEq, Repr

instance : Inhabited StackTraceInfo := ⟨⟨none, 0⟩⟩

/-- Descriptor found for the "name" property of a callable: whether the
property is an accessor, and the slot value otherwise read. -/
structure NameDesc where
  accessor : Bool
  value : HValue
deriving DecidableEq, Repr

/-- The callee slot of a frame (getCalleeClosureOrCBRef): a Callable object
(carrying the descriptor getNamedDescriptor finds for "name", if any), a
native value holding a CodeBlock pointer, or anything else. -/
inductive CalleeRef where
  | callable (nameProp : Option NameDesc)
  | nativeCodeBlock (cb : CodeBlock)
  | other
deriving DecidableEq, Repr

/-- One live stack frame as seen by the walker. calleeCodeBlock is modelled
from the spec: getCalleeCodeBlock resolves the code unit the frame itself is
executing, when it is script code (StackFrame-inline.h is not among the given
sources). savedCodeBlock / savedOffset are the saved caller code block and
the offset of the saved IP inside it. -/
structure StackFrame where
  callee : CalleeRef
  calleeCodeBlock : Option CodeBlock
  savedCodeBlock : Option CodeBlock
  savedOffset : Nat
deriving DecidableEq, Repr

/-- The three trace-related fields of a JSError cell: stacktrace_ (owned
StackTrace, null until capture), funcNames_ (GC pointer to the name list,
null when absent), domains_ (GC pointer to the domain list, null when
absent). Domains are identified by their id. -/
structure JSErrorState where
  stacktrace : Option (List StackTraceInfo)
  funcNames : Option (List HValue)
  domains : Option (List Nat)
deriving DecidableEq, Repr

/-- Allocation oracle driving the fallible allocation sites of one capture:
creation of the domains ArrayStorage, each push_back into it (counted),
creation of the names PropStorage, and each resize of it (counted). -/
structure AllocOracle where
  domainsCreateOk : Bool
  domainPushOk : Nat → Bool
  namesCreateOk : Bool
  namesResizeOk : Nat → Bool

/-- Outcome of recordStackTrace: the returned status, the error cell state
after the call, and whether a thrown value is still pending on the runtime
when the call returns. -/
structure RecordOutcome where
  status : ExecutionStatus
  error : JSErrorState
  thrown : Bool
deriving DecidableEq, Repr

/-- Name resolution for one frame inside getCallStackFunctionNames: a
Callable with a non-accessor "name" property yields that slot value; a
native CodeBlock value with a valid name symbol yields its string; anything
else yields undefined. -/
def resolveFrameName (cf : StackFrame) : HValue :=
  match cf.callee with
  | CalleeRef.callable nameProp =>
    match nameProp with
    | some desc => if desc.accessor then HValue.undefined else desc.value
    | none => HValue.undefined
  | CalleeRef.nativeCodeBlock cb =>
    if cb.nameValid then HValue.string cb.name else HValue.undefined
  | CalleeRef.other => HValue.undefined

/-- The loop of getCallStackFunctionNames over the (possibly top-skipped)
frames: each iteration resizes the storage (fallible, counted by the oracle)
and stores the resolved name. A failed resize clears the thrown value and
makes the whole result null. -/
def namesLoop (resizeOk : Nat → Bool) : List StackFrame → Nat → Option (List HValue)
  | [], _ => some []
  | cf :: rest, k =>
    if resizeOk k then
      match namesLoop resizeOk rest (k + 1) with
      | some ns => some (resolveFrameName cf :: ns)
      | none => none
    else none

/-- getCallStackFunctionNames: create the PropStorage (fallible; on failure
the thrown value is cleared and a null handle returned), then walk the
frames, skipping the first when skipTopFrame is set. -/
def getCallStackFunctionNames (frames : List StackFrame) (skipTopFrame : Bool)
    (createOk : Bool) (resizeOk : Nat → Bool) : Option (List HValue) :=
  if createOk then
    namesLoop resizeOk (if skipTopFrame then frames.drop 1 else frames) 0
  else none

/-- addDomain: resolve the owning domain of the code block; if it equals the
most recently appended domain, succeed without appending; otherwise
push_back (fallible, counted by k). -/
def addDomain (pushOk : Nat → Bool) (cb : CodeBlock) (ds : List Nat) (k : Nat) :
    Except Unit (List Nat × Nat) :=
  if ds.getLast? = some cb.domainId then Except.ok (ds, k)
  else if pushOk k then Except.ok (ds ++ [cb.domainId], k + 1) else Except.error ()

/-- The frame loop of recordStackTrace: for every live frame append an entry
built from the saved caller code block and saved IP offset (offset 0 when
the saved code block is null), registering the domain of a non-null saved
code block via addDomain. -/
def fillFrames (pushOk : Nat → Bool) :
    List StackFrame → List StackTraceInfo → List Nat → Nat →
    Except Unit (List StackTraceInfo × List Nat × Nat)
  | [], stack, ds, k => Except.ok (stack, ds, k)
  | cf :: rest, stack, ds, k =>
    match cf.savedCodeBlock with
    | some scb =>
      match addDomain pushOk scb ds k with
      | Except.ok (ds1, k1) =>
        fillFrames pushOk rest (stack ++ [⟨some scb, cf.savedOffset⟩]) ds1 k1
      | Except.error e => Except.error e
    | none => fillFrames pushOk rest (stack ++ [⟨none, 0⟩]) ds k

/-- Whether the walker has a frame and its top frame has a resolvable callee
code block (frames.begin() != frames.end() and getCalleeCodeBlock non-null). -/
def topFrameHasCalleeCB : List StackFrame → Bool
  | [] => false
  | f :: _ => f.calleeCodeBlock.isSome

/-- The top entry of the capture when skipTopFrame is false: with an explicit
code block, one entry at the offset of ip plus its domain registration;
otherwise one native (null, 0) entry. With skipTopFrame the stack starts
empty. -/
def topEntry (skipTopFrame : Bool) (codeBlock : Option CodeBlock) (ipOffset : Nat)
    (pushOk : Nat → Bool) : Except Unit (List StackTraceInfo × List Nat × Nat) :=
  if skipTopFrame then Except.ok ([], [], 0)
  else
    match codeBlock with
    | some cb =>
      match addDomain pushOk cb [] 0 with
      | Except.ok (ds, k) => Except.ok ([⟨some cb, ipOffset⟩], ds, k)
      | Except.error e => Except.error e
    | none => Except.ok ([⟨none, 0⟩], [], 0)

/-- JSError::recordStackTrace. ipOffset models codeBlock->getOffsetOf(ip).
Mirrors the source: immediate success if stacktrace_ is already set; the
top-frame guard; creation of the domains storage (fallible); the top entry;
the frame loop; pop_back of the sentinel entry; best-effort name list; then
the final stores. The source stores only stacktrace_ and funcNames_ at the
end: the locally built domain list is dropped and the domains field of the
error is left untouched. An allocation failure while building the trace
returns the exception status with the thrown value still pending. -/
def recordStackTrace (self : JSErrorState) (frames : List StackFrame)
    (skipTopFrame : Bool) (codeBlock : Option CodeBlock) (ipOffset : Nat)
    (oracle : AllocOracle) : RecordOutcome :=
  if self.stacktrace.isSome then
    ⟨ExecutionStatus.returned, self, false⟩
  else if !skipTopFrame && codeBlock.isNone && topFrameHasCalleeCB frames then
    ⟨ExecutionStatus.returned, self, false⟩
  else if !oracle.domainsCreateOk then
    ⟨ExecutionStatus.exception, self, true⟩
  else
    match topEntry skipTopFrame codeBlock ipOffset oracle.domainPushOk with
    | Except.error _ => ⟨ExecutionStatus.exception, self, true⟩
    | Except.ok (stack0, ds0, k0) =>
      match fillFrames oracle.domainPushOk frames stack0 ds0 k0 with
      | Except.error _ => ⟨ExecutionStatus.exception, self, true⟩
      | Except.ok (stack, _, _) =>
        ⟨ExecutionStatus.returned,
         { self with
             stacktrace := some stack.dropLast,
             funcNames := getCallStackFunctionNames frames skipTopFrame
               oracle.namesCreateOk oracle.namesResizeOk },
         false⟩

/-- getDebugInfo: null when the code block has no debug source locations
table, otherwise the table lookup for the bytecode offset (which can itself
yield no location). -/
def getDebugInfo (cb : CodeBlock) (bytecodeOffset : Nat) : Option DebugSourceLocation :=
  match cb.debugLocs with
  | none => none
  | some table => table.lookup bytecodeOffset

/-- JSError::appendFunctionNameAtIndex, returning some appended name or none
when the routine returns false (the caller then prints "anonymous"). The
name starts as the empty string; when funcNames_ is set, the entry at the
index replaces it if it is a string primitive (otherwise the name becomes
null); a null or empty name falls back to the declared name of the code
block at the index, when that code block is present. -/
def appendFunctionNameAtIndex (trace : List StackTraceInfo)
    (funcNames : Option (List HValue)) (index : Nat) : Option String :=
  let name0 : Option String :=
    match funcNames with
    | some ns =>
      match ns.getD index HValue.undefined with
      | HValue.string s => some s
      | HValue.undefined => none
    | none => some ""
  let name1 : Option String :=
    if name0 = none ∨ name0 = some "" then
      match (trace.getD index default).codeBlock with
      | some cb => some cb.name
      | none => name0
    else name0
  if name1 = none ∨ name1 = some "" then none else name1

/-- The text one loop iteration of constructStackTraceString appends for the
frame at the given index: the at-prefix, the resolved or "anonymous" name,
then "(native)" for a null code block, the debug-info location when one
exists, or the synthesized virtual-offset address line. The virtual-offset
cache of the source is a memoization of getVirtualOffset with an identical
result, so the offset is read directly here. -/
def frameBody (trace : List StackTraceInfo) (funcNames : Option (List HValue))
    (index : Nat) : String :=
  let sti := trace.getD index default
  let nameStr :=
    match appendFunctionNameAtIndex trace funcNames index with
    | some s => s
    | none => "anonymous"
  let locStr :=
    match sti.codeBlock with
    | none => " (native)"
    | some cb =>
      match getDebugInfo cb sti.bytecodeOffset with
      | some loc =>
        " (" ++ loc.filename ++ ":" ++ toString loc.line ++ ":" ++
          toString loc.column ++ ")"
      | none =>
        " (address at " ++ (if cb.sourceURL = "" then "unknown" else cb.sourceURL) ++
          ":1:" ++ toString (sti.bytecodeOffset + cb.virtualOffset) ++ ")"
  "\n    at " ++ (nameStr ++ locStr)

/-- The synthetic truncation line appended once when the trace holds more
than PRINT_HEAD + PRINT_TAIL entries. -/
def skipLine (n : Nat) : String :=
  "\n    ... skipping " ++ toString n ++ " frames"

/-- The frame loop of constructStackTraceString, as the list of chunks the
iterations append, starting at the given index. PRINT_HEAD and PRINT_TAIL
are both 50: with more than 100 entries, the iteration at index 50 appends
the skip line instead of a frame and continues, and an iteration whose index
lies strictly between 50 and length - 50 first jumps to index length - 50. -/
def traceChunksFrom (trace : List StackTraceInfo) (funcNames : Option (List HValue))
    (index : Nat) : List String :=
  if h : index < trace.length then
    if h2 : 100 < trace.length then
      if h3 : index = 50 then
        skipLine (trace.length - 100) :: traceChunksFrom trace funcNames (index + 1)
      else if h4 : 50 < index ∧ index < trace.length - 50 then
        frameBody trace funcNames (trace.length - 50) ::
          traceChunksFrom trace funcNames (trace.length - 50 + 1)
      else
        frameBody trace funcNames index :: traceChunksFrom trace funcNames (index + 1)
    else
      frameBody trace funcNames index :: traceChunksFrom trace funcNames (index + 1)
  else []
termination_by trace.length - index
decreasing_by
  all_goals omega

/-- All chunks the frame loop of constructStackTraceString appends. -/
def stackTraceChunks (trace : List StackTraceInfo)
    (funcNames : Option (List HValue)) : List String :=
  traceChunksFrom trace funcNames 0

/-- JSError::constructStackTraceString: the textual form of the error itself
(replaced by the fixed placeholder when toString raises, with the thrown
value cleared), followed by the chunks of the frame loop. toStringResult is
the outcome of toString on the error: none models a raised exception. -/
def constructStackTraceString (toStringResult : Option String)
    (trace : List StackTraceInfo) (funcNames : Option (List HValue)) : String :=
  (match toStringResult with
   | some s => s
   | none => "<error>") ++
  String.join (stackTraceChunks trace funcNames)

/-- Values a script can store into the stack property. -/
inductive JSValue where
  | undefined
  | null
  | boolean (b : Bool)
  | number (n : Int)
  | string (s : String)
deriving DecidableEq, Repr

/-- The own "stack" slot of an object: the shared internal accessor pair, or
a plain data property with its value and enumerable flag. -/
inductive StackSlot where
  | accessor
  | plain (v : JSValue) (enumerable : Bool)
deriving DecidableEq, Repr

/-- A JSError object as the accessors see it: its trace fields, the outcome
of toString on it (none models a raised exception, mirroring the
constructStackTraceString header fallback), and its own "stack" slot. -/
structure ErrorObj where
  err : JSErrorState
  toStringResult : Option String
  stackProp : StackSlot
deriving DecidableEq, Repr

/-- A non-error object receiver, with its own optional "stack" slot. -/
structure PlainObj where
  stackProp : Option StackSlot
deriving DecidableEq, Repr

/-- The receiver (this argument) of the shared accessor pair: an error
instance, some other object, a primitive (which toObject wraps in a fresh
object), or null / undefined (on which toObject raises a TypeError). -/
inductive Receiver where
  | error (e : ErrorObj)
  | object (o : PlainObj)
  | primitive (v : JSValue)
  | nullOrUndefined
deriving DecidableEq, Repr

/-- Whether dyn_vmcast to JSError succeeds on the receiver. -/
def Receiver.isErrorInst : Receiver → Bool
  | Receiver.error _ => true
  | _ => false

/-- Outcome of one accessor call: status, returned value when any, and the
receiver state after the call. -/
structure AccessorOutcome where
  status : ExecutionStatus
  ret : Option JSValue
  recv : Receiver
deriving DecidableEq, Repr

/-- Modelled from the spec: the predefined replacement string used when the
stacktrace string itself is too long to allocate (Predefined strings are not
among the given sources). -/
def stacktraceTooLong : String := "stack trace too long"

/-- JSError::errorStackGetter. A non-error receiver raises a TypeError. With
no captured trace the getter returns the empty string and changes nothing.
Otherwise it builds the trace string, releases stacktrace_ unless a debugger
is enabled (the build-time flag is a parameter here), substitutes the
too-long placeholder when string creation fails (clearing the thrown value),
redefines "stack" as a plain non-enumerable data property holding the
string, and returns the string. -/
def errorStackGetter (recv : Receiver) (stringCreateOk : Bool)
    (debuggerEnabled : Bool) : AccessorOutcome :=
  match recv with
  | Receiver.error e =>
    match e.err.stacktrace with
    | none => ⟨ExecutionStatus.returned, some (JSValue.string ""), recv⟩
    | some trace =>
      let s := constructStackTraceString e.toStringResult trace e.err.funcNames
      let e1 := if debuggerEnabled then e
        else { e with err := { e.err with stacktrace := none } }
      let str := if stringCreateOk then s else stacktraceTooLong
      ⟨ExecutionStatus.returned, some (JSValue.string str),
        Receiver.error { e1 with stackProp := StackSlot.plain (JSValue.string str) false }⟩
  | r => ⟨ExecutionStatus.exception, none, r⟩

/-- Outcome of the setter: status, returned value, receiver state after the
call, and the "stack" slot as defined on toObject(receiver) when the define
happened (for a primitive receiver that object is a fresh wrapper). -/
structure SetterOutcome where
  status : ExecutionStatus
  ret : Option JSValue
  recv : Receiver
  definedSlot : Option StackSlot
deriving DecidableEq, Repr

/-- JSError::errorStackSetter: when the receiver is an error instance,
release its stacktrace_; then toObject the receiver (raising a TypeError on
null / undefined) and redefine "stack" on that object as a plain
non-enumerable data property holding exactly the argument; return
undefined. -/
def errorStackSetter (recv : Receiver) (v : JSValue) : SetterOutcome :=
  let recv1 : Receiver :=
    match recv with
    | Receiver.error e =>
      Receiver.error { e with err := { e.err with stacktrace := none } }
    | r => r
  match recv1 with
  | Receiver.nullOrUndefined =>
    ⟨ExecutionStatus.exception, none, recv1, none⟩
  | Receiver.error e =>
    ⟨ExecutionStatus.returned, some JSValue.undefined,
      Receiver.error { e with stackProp := StackSlot.plain v false },
      some (StackSlot.plain v false)⟩
  | Receiver.object o =>
    ⟨ExecutionStatus.returned, some JSValue.undefined,
      Receiver.object { o with stackProp := some (StackSlot.plain v false) },
      some (StackSlot.plain v false)⟩
  | Receiver.primitive p =>
    ⟨ExecutionStatus.returned, some JSValue.undefined,
      Receiver.primitive p, some (StackSlot.plain v false)⟩

/-- Reading the "stack" property of an error instance: a plain data slot
yields its value directly; the accessor slot invokes the shared getter. -/
def readStackProp (e : ErrorObj) (stringCreateOk : Bool)
    (debuggerEnabled : Bool) : ExecutionStatus × Option JSValue :=
  match e.stackProp with
  | StackSlot.plain v _ => (ExecutionStatus.returned, some v)
  | StackSlot.accessor =>
    let out := errorStackGetter (Receiver.error e) stringCreateOk debuggerEnabled
    (out.status, out.ret)

/-! Concrete fixtures used by the witnesses and counterexamples. -/

/-- An error cell on which capture was never invoked. -/
def freshError : JSErrorState := ⟨none, none, none⟩

/-- A frame whose callee is neither a callable nor a native code block and
whose saved caller code block is null. -/
def nativeFrame : StackFrame := ⟨CalleeRef.other, none, none, 0⟩

/-- An oracle on which every allocation succeeds. -/
def allOkOracle : AllocOracle := ⟨true, fun _ => true, true, fun _ => true⟩

/-- An oracle on which the creation of the domains ArrayStorage fails. -/
def domainsCreateFailOracle : AllocOracle := ⟨false, fun _ => true, true, fun _ => true⟩

/-- An oracle on which the creation of the names PropStorage fails. -/
def namesCreateFailOracle : AllocOracle := ⟨true, fun _ => true, false, fun _ => true⟩

/-- A code block owned by domain 7, without name or debug data. -/
def domainCodeBlock : CodeBlock := ⟨7, false, "", none, "", 0⟩

/-- An error cell that already carries a one-entry captured trace. -/
def capturedError : JSErrorState := ⟨some [default], none, none⟩

/-- C1 counterexample: with the initial domain-list allocation failing (an
allocation failure while building the trace sequence itself), the call does
not return success with the exception cleared: it returns the exception
status and the thrown value is still pending. -/
theorem recordStackTrace_allocFailure_cex :
    ¬ ((recordStackTrace freshError [nativeFrame] true none 0
          domainsCreateFailOracle).status = ExecutionStatus.returned ∧
       (recordStackTrace freshError [nativeFrame] true none 0
          domainsCreateFailOracle).thrown = false) := by
  decide

/-- C1 (amended): any allocation failure while building the trace sequence
itself aborts the capture with no trace recorded and the error cell
untouched, but the raised exception is not cleared: the call returns the
exception status with the thrown value still pending, propagating the
failure to the caller. -/
theorem recordStackTrace_allocFailure_propagates
    (self : JSErrorState) (frames : List StackFrame) (skipTopFrame : Bool)
    (codeBlock : Option CodeBlock) (ipOffset : Nat) (oracle : AllocOracle)
    (h : (recordStackTrace self frames skipTopFrame codeBlock ipOffset oracle).status =
      ExecutionStatus.exception) :
    recordStackTrace self frames skipTopFrame codeBlock ipOffset oracle =
      ⟨ExecutionStatus.exception, self, true⟩ := by
  by_cases h1 : self.stacktrace.isSome = true
  · simp [recordStackTrace, h1] at h
  · by_cases h2 : (!skipTopFrame && codeBlock.isNone && topFrameHasCalleeCB frames) = true
    · simp [recordStackTrace, h1, h2] at h
    · by_cases h3 : oracle.domainsCreateOk = true
      · cases htop : topEntry skipTopFrame codeBlock ipOffset oracle.domainPushOk with
        | error e => simp [recordStackTrace, h1, h2, h3, htop]
        | ok v =>
          obtain ⟨stack0, ds0, k0⟩ := v
          cases hfill : fillFrames oracle.domainPushOk frames stack0 ds0 k0 with
          | error e => simp [recordStackTrace, h1, h2, h3, htop, hfill]
          | ok w =>
            obtain ⟨stack, ds, k⟩ := w
            simp [recordStackTrace, h1, h2, h3, htop, hfill] at h
      · simp [recordStackTrace, h1, h2, h3]

/-- C1 witness: the input of the counterexample satisfies the hypothesis of
the amended theorem, and the amended conclusion holds there. -/
theorem recordStackTrace_allocFailure_propagates_witness :
    (recordStackTrace freshError [nativeFrame] true none 0
       domainsCreateFailOracle).status = ExecutionStatus.exception ∧
    recordStackTrace freshError [nativeFrame] true none 0 domainsCreateFailOracle =
      ⟨ExecutionStatus.exception, freshError, true⟩ :=
  ⟨by decide,
   recordStackTrace_allocFailure_propagates freshError [nativeFrame] true none 0
     domainsCreateFailOracle (by decide)⟩

/-- C2: on a successful capture whose trace references domain 7 through its
single frame entry, the code leaves the domains field of the error cell
unset (null): the locally built domain list is dropped at the final stores,
which assign only stacktrace_ and funcNames_, so the referenced domain is
not present in domains_. -/
theorem recordStackTrace_domainsUnset :
    (recordStackTrace freshError [nativeFrame] false (some domainCodeBlock) 5
       allOkOracle).status = ExecutionStatus.returned ∧
    (recordStackTrace freshError [nativeFrame] false (some domainCodeBlock) 5
       allOkOracle).error.stacktrace = some [⟨some domainCodeBlock, 5⟩] ∧
    (recordStackTrace freshError [nativeFrame] false (some domainCodeBlock) 5
       allOkOracle).error.domains = none := by
  decide

/-- C3: when stacktrace_ is already set, recordStackTrace is a no-op that
returns success: the error cell is left exactly as the first successful
capture produced it and no exception is pending. -/
theorem recordStackTrace_firstWriteWins
    (self : JSErrorState) (frames : List StackFrame) (skipTopFrame : Bool)
    (codeBlock : Option CodeBlock) (ipOffset : Nat) (oracle : AllocOracle)
    (t : List StackTraceInfo) (h : self.stacktrace = some t) :
    recordStackTrace self frames skipTopFrame codeBlock ipOffset oracle =
      ⟨ExecutionStatus.returned, self, false⟩ := by
  simp [recordStackTrace, h]

/-- C3 witness: a second capture attempt on an error holding a one-entry
trace is a no-op success. -/
theorem recordStackTrace_firstWriteWins_witness :
    capturedError.stacktrace = some [default] ∧
    recordStackTrace capturedError [nativeFrame] false none 0 allOkOracle =
      ⟨ExecutionStatus.returned, capturedError, false⟩ :=
  ⟨rfl,
   recordStackTrace_firstWriteWins capturedError [nativeFrame] false none 0
     allOkOracle [default] rfl⟩

/-- C4: with skipTopFrame false and no explicit code block, when the top
frame of the walker has a resolvable callee code block, recordStackTrace
returns success without capturing and the error cell is unchanged, so
stacktrace_ remains unset and capture can still happen later. -/
theorem recordStackTrace_topFrameGuard
    (self : JSErrorState) (f : StackFrame) (fs : List StackFrame)
    (ipOffset : Nat) (oracle : AllocOracle) (cb : CodeBlock)
    (h0 : self.stacktrace = none) (h1 : f.calleeCodeBlock = some cb) :
    recordStackTrace self (f :: fs) false none ipOffset oracle =
      ⟨ExecutionStatus.returned, self, false⟩ ∧
    (recordStackTrace self (f :: fs) false none ipOffset oracle).error.stacktrace =
      none := by
  have heq : recordStackTrace self (f :: fs) false none ipOffset oracle =
      ⟨ExecutionStatus.returned, self, false⟩ := by
    simp [recordStackTrace, h0, topFrameHasCalleeCB, h1]
  exact ⟨heq, by rw [heq]; simpa using h0⟩

/-- C4 witness: a frame whose callee code block resolves triggers the guard
on a fresh error. -/
theorem recordStackTrace_topFrameGuard_witness :
    freshError.stacktrace = none ∧
    (StackFrame.mk CalleeRef.other (some domainCodeBlock) none 0).calleeCodeBlock =
      some domainCodeBlock ∧
    recordStackTrace freshError
        [StackFrame.mk CalleeRef.other (some domainCodeBlock) none 0] false none 0
        allOkOracle =
      ⟨ExecutionStatus.returned, freshError, false⟩ :=
  ⟨rfl, rfl,
   (recordStackTrace_topFrameGuard freshError
      (StackFrame.mk CalleeRef.other (some domainCodeBlock) none 0) [] 0
      allOkOracle domainCodeBlock rfl rfl).1⟩

/-- The frame loop appends exactly one trace entry per walked frame. -/
theorem fillFrames_ok_length (pushOk : Nat → Bool) (frames : List StackFrame) :
    ∀ (stack : List StackTraceInfo) (ds : List Nat) (k : Nat)
      (stack1 : List StackTraceInfo) (ds1 : List Nat) (k1 : Nat),
      fillFrames pushOk frames stack ds k = Except.ok (stack1, ds1, k1) →
      stack1.length = stack.length + frames.length := by
  induction frames with
  | nil =>
    intro stack ds k stack1 ds1 k1 h
    simp [fillFrames] at h
    simp [← h.1]
  | cons cf rest ih =>
    intro stack ds k stack1 ds1 k1 h
    simp only [fillFrames] at h
    split at h
    · split at h
      · have hlen := ih _ _ _ _ _ _ h
        simp at hlen
        simp [hlen]
        omega
      · exact absurd h (by simp)
    · have hlen := ih _ _ _ _ _ _ h
      simp at hlen
      simp [hlen]
      omega

/-- The name loop produces one entry per processed frame when it succeeds. -/
theorem namesLoop_ok_length (resizeOk : Nat → Bool) (l : List StackFrame) :
    ∀ (k : Nat) (ns : List HValue),
      namesLoop resizeOk l k = some ns → ns.length = l.length := by
  induction l with
  | nil =>
    intro k ns h
    simp [namesLoop] at h
    simp [← h]
  | cons cf rest ih =>
    intro k ns h
    simp only [namesLoop] at h
    by_cases hr : resizeOk k = true
    · rw [if_pos hr] at h
      cases hrec : namesLoop resizeOk rest (k + 1) with
      | some ns2 =>
        rw [hrec] at h
        have := ih (k + 1) ns2 hrec
        simp [← Option.some.injEq ns (resolveFrameName cf :: ns2)] at h
        simp [← h, this]
      | none =>
        rw [hrec] at h
        exact absurd h (by simp)
    · rw [if_neg hr] at h
      exact absurd h (by simp)

/-- The top entry contributes one trace entry unless the top frame is
skipped. -/
theorem topEntry_ok_length (skipTopFrame : Bool) (codeBlock : Option CodeBlock)
    (ipOffset : Nat) (pushOk : Nat → Bool) (stack0 : List StackTraceInfo)
    (ds0 : List Nat) (k0 : Nat)
    (h : topEntry skipTopFrame codeBlock ipOffset pushOk = Except.ok (stack0, ds0, k0)) :
    stack0.length = if skipTopFrame then 0 else 1 := by
  cases skipTopFrame with
  | true =>
    simp [topEntry] at h
    simp [← h.1]
  | false =>
    simp only [topEntry] at h
    rw [if_neg (by simp)] at h
    split at h
    · split at h
      · simp at h
        simp [← h.1]
      · exact absurd h (by simp)
    · simp at h
      simp [← h.1]

/-- C5: whenever a capture actually records a trace, the best-effort name
list is either absent or has exactly the length of the recorded trace (the
walked frames minus the dropped sentinel entry, plus the top entry when the
top frame is not skipped). -/
theorem recordStackTrace_funcNamesAligned
    (self : JSErrorState) (frames : List StackFrame) (skipTopFrame : Bool)
    (codeBlock : Option CodeBlock) (ipOffset : Nat) (oracle : AllocOracle)
    (st : List StackTraceInfo)
    (h0 : self.stacktrace = none)
    (h1 : (recordStackTrace self frames skipTopFrame codeBlock ipOffset
        oracle).error.stacktrace = some st) :
    (recordStackTrace self frames skipTopFrame codeBlock ipOffset
        oracle).error.funcNames = none ∨
    ∃ ns, (recordStackTrace self frames skipTopFrame codeBlock ipOffset
        oracle).error.funcNames = some ns ∧ ns.length = st.length := by
  have h1' : self.stacktrace.isSome = false := by simp [h0]
  by_cases h2 : (!skipTopFrame && codeBlock.isNone && topFrameHasCalleeCB frames) = true
  · have hred : recordStackTrace self frames skipTopFrame codeBlock ipOffset oracle =
        ⟨ExecutionStatus.returned, self, false⟩ := by
      simp [recordStackTrace, h1', h2]
    rw [hred] at h1
    simp [h0] at h1
  · by_cases h3 : oracle.domainsCreateOk = true
    · cases htop : topEntry skipTopFrame codeBlock ipOffset oracle.domainPushOk with
      | error e =>
        have hred : recordStackTrace self frames skipTopFrame codeBlock ipOffset oracle =
            ⟨ExecutionStatus.exception, self, true⟩ := by
          simp [recordStackTrace, h1', h2, h3, htop]
        rw [hred] at h1
        simp [h0] at h1
      | ok v =>
        obtain ⟨stack0, ds0, k0⟩ := v
        cases hfill : fillFrames oracle.domainPushOk frames stack0 ds0 k0 with
        | error e =>
          have hred : recordStackTrace self frames skipTopFrame codeBlock ipOffset oracle =
              ⟨ExecutionStatus.exception, self, true⟩ := by
            simp [recordStackTrace, h1', h2, h3, htop, hfill]
          rw [hred] at h1
          simp [h0] at h1
        | ok w =>
          obtain ⟨stack, ds, k⟩ := w
          have hred : recordStackTrace self frames skipTopFrame codeBlock ipOffset oracle =
              ⟨ExecutionStatus.returned,
               { self with
                   stacktrace := some stack.dropLast,
                   funcNames := getCallStackFunctionNames frames skipTopFrame
                     oracle.namesCreateOk oracle.namesResizeOk },
               false⟩ := by
            simp [recordStackTrace, h1', h2, h3, htop, hfill]
          rw [hred] at h1 ⊢
          simp at h1 ⊢
          by_cases hc : oracle.namesCreateOk = true
          · cases hn : namesLoop oracle.namesResizeOk
                (if skipTopFrame then frames.drop 1 else frames) 0 with
            | some ns =>
              right
              have hns := namesLoop_ok_length oracle.namesResizeOk
                (if skipTopFrame then frames.drop 1 else frames) 0 ns hn
              have hst : stack.length = stack0.length + frames.length :=
                fillFrames_ok_length oracle.domainPushOk frames stack0 ds0 k0 stack ds k hfill
              have htl := topEntry_ok_length skipTopFrame codeBlock ipOffset
                oracle.domainPushOk stack0 ds0 k0 htop
              refine ⟨ns, ?_, ?_⟩
              · rw [getCallStackFunctionNames, if_pos hc, hn]
              · rw [← h1]
                cases skipTopFrame with
                | true =>
                  have htl0 : stack0.length = 0 := by simpa using htl
                  have hns0 : ns.length = frames.length - 1 := by
                    simpa [List.length_drop] using hns
                  simp [List.length_dropLast]
                  omega
                | false =>
                  have htl0 : stack0.length = 1 := by simpa using htl
                  have hns0 : ns.length = frames.length := by simpa using hns
                  simp [List.length_dropLast]
                  omega
            | none =>
              left
              rw [getCallStackFunctionNames, if_pos hc, hn]
          · left
            rw [getCallStackFunctionNames,
              if_neg (by simpa using Bool.of_not_eq_true hc)]
    · have hred : recordStackTrace self frames skipTopFrame codeBlock ipOffset oracle =
          ⟨ExecutionStatus.exception, self, true⟩ := by
        simp [recordStackTrace, h1', h2, h3]
      rw [hred] at h1
      simp [h0] at h1

/-- C5 witness: a two-frame walk with the top frame skipped records a
one-entry trace with a one-entry name list. -/
theorem recordStackTrace_funcNamesAligned_witness :
    freshError.stacktrace = none ∧
    (recordStackTrace freshError [nativeFrame, nativeFrame] true none 0
        allOkOracle).error.stacktrace = some [⟨none, 0⟩] ∧
    ((recordStackTrace freshError [nativeFrame, nativeFrame] true none 0
        allOkOracle).error.funcNames = none ∨
     ∃ ns, (recordStackTrace freshError [nativeFrame, nativeFrame] true none 0
        allOkOracle).error.funcNames = some ns ∧ ns.length = 1) :=
  ⟨rfl, by decide,
   recordStackTrace_funcNamesAligned freshError [nativeFrame, nativeFrame] true
     none 0 allOkOracle [⟨none, 0⟩] rfl (by decide)⟩

/-- A code block owned by the given domain, without name or debug data. -/
def mkDomainCB (d : Nat) : CodeBlock := ⟨d, false, "", none, "", 0⟩

/-- A frame whose saved caller code block is owned by the given domain. -/
def frameOfDomain (d : Nat) : StackFrame :=
  ⟨CalleeRef.other, none, some (mkDomainCB d), 0⟩

/-- The strictly alternating domain sequence A, B, A, B, ... of length n. -/
def altDomains (A B : Nat) : Nat → List Nat
  | 0 => []
  | n + 1 => A :: altDomains B A n

/-- Walking frames whose saved code blocks alternate strictly between two
domains appends one domain per frame: the last-entry check never fires. -/
theorem fillFrames_alt_length :
    ∀ (n A B : Nat) (stack : List StackTraceInfo) (ds : List Nat) (k : Nat),
      A ≠ B → ds.getLast? ≠ some A →
      ∃ stack1 ds1 k1,
        fillFrames (fun _ => true) ((altDomains A B n).map frameOfDomain) stack ds k =
          Except.ok (stack1, ds1, k1) ∧ ds1.length = ds.length + n := by
  intro n
  induction n with
  | zero =>
    intro A B stack ds k hAB hlast
    exact ⟨stack, ds, k, rfl, by simp [altDomains, fillFrames]⟩
  | succ m ih =>
    intro A B stack ds k hAB hlast
    have hstep :
        fillFrames (fun _ => true) ((altDomains A B (m + 1)).map frameOfDomain) stack ds k =
          fillFrames (fun _ => true) ((altDomains B A m).map frameOfDomain)
            (stack ++ [⟨some (mkDomainCB A), 0⟩]) (ds ++ [A]) (k + 1) := by
      simp [altDomains, fillFrames, frameOfDomain, addDomain, mkDomainCB, hlast]
    have hlast1 : (ds ++ [A]).getLast? ≠ some B := by
      rw [List.getLast?_concat]
      simpa using hAB
    obtain ⟨stack1, ds1, k1, hres, hlen⟩ :=
      ih B A (stack ++ [⟨some (mkDomainCB A), 0⟩]) (ds ++ [A]) (k + 1)
        (Ne.symm hAB) hlast1
    refine ⟨stack1, ds1, k1, hstep.trans hres, ?_⟩
    simp at hlen
    omega

/-- C7: domains are deduplicated only against the immediately preceding
appended entry. Frames whose saved code blocks alternate strictly between
two distinct domains A, B, A, B, ... produce a domain list with one entry
per frame (no cross-run collapsing), whereas the run A, A, A, B, B collapses
to exactly [A, B]. -/
theorem addDomain_adjacentDedup :
    (∀ (A B n : Nat), A ≠ B →
       ∃ stack1 ds1 k1,
         fillFrames (fun _ => true) ((altDomains A B n).map frameOfDomain) [] [] 0 =
           Except.ok (stack1, ds1, k1) ∧ ds1.length = n) ∧
    (∀ (A B : Nat), A ≠ B →
       ∃ stack1 k1,
         fillFrames (fun _ => true) ([A, A, A, B, B].map frameOfDomain) [] [] 0 =
           Except.ok (stack1, [A, B], k1)) := by
  constructor
  · intro A B n hAB
    obtain ⟨stack1, ds1, k1, hres, hlen⟩ :=
      fillFrames_alt_length n A B [] [] 0 hAB (by simp)
    exact ⟨stack1, ds1, k1, hres, by simpa using hlen⟩
  · intro A B hAB
    refine ⟨[⟨some (mkDomainCB A), 0⟩, ⟨some (mkDomainCB A), 0⟩, ⟨some (mkDomainCB A), 0⟩,
             ⟨some (mkDomainCB B), 0⟩, ⟨some (mkDomainCB B), 0⟩], 2, ?_⟩
    simp [fillFrames, frameOfDomain, addDomain, mkDomainCB, hAB, List.getLast?]

/-- C7 witness: domains 0 and 1 alternating over four frames give a
four-entry domain list. -/
theorem addDomain_adjacentDedup_witness :
    (0 : Nat) ≠ 1 ∧
    ∃ stack1 ds1 k1,
      fillFrames (fun _ => true) ((altDomains 0 1 4).map frameOfDomain) [] [] 0 =
        Except.ok (stack1, ds1, k1) ∧ ds1.length = 4 :=
  ⟨by decide, addDomain_adjacentDedup.1 0 1 4 (by decide)⟩

/-- C8 part helper: the capture status and the recorded trace never depend
on the name-list allocation oracle. -/
theorem recordStackTrace_namesOracleIrrelevant
    (self : JSErrorState) (frames : List StackFrame) (skipTopFrame : Bool)
    (codeBlock : Option CodeBlock) (ipOffset : Nat) (o1 o2 : AllocOracle)
    (hdc : o1.domainsCreateOk = o2.domainsCreateOk)
    (hdp : o1.domainPushOk = o2.domainPushOk) :
    (recordStackTrace self frames skipTopFrame codeBlock ipOffset o1).status =
      (recordStackTrace self frames skipTopFrame codeBlock ipOffset o2).status ∧
    (recordStackTrace self frames skipTopFrame codeBlock ipOffset o1).error.stacktrace =
      (recordStackTrace self frames skipTopFrame codeBlock ipOffset o2).error.stacktrace := by
  by_cases h1 : self.stacktrace.isSome = true
  · simp [recordStackTrace, h1]
  · by_cases h2 : (!skipTopFrame && codeBlock.isNone && topFrameHasCalleeCB frames) = true
    · simp [recordStackTrace, h1, h2]
    · by_cases h3 : o2.domainsCreateOk = true
      · cases htop : topEntry skipTopFrame codeBlock ipOffset o2.domainPushOk with
        | error e =>
          simp [recordStackTrace, h1, h2, h3, hdc, hdp, htop]
        | ok v =>
          obtain ⟨stack0, ds0, k0⟩ := v
          cases hfill : fillFrames o2.domainPushOk frames stack0 ds0 k0 with
          | error e =>
            simp [recordStackTrace, h1, h2, h3, hdc, hdp, htop, hfill]
          | ok w =>
            obtain ⟨stack, ds, k⟩ := w
            simp [recordStackTrace, h1, h2, h3, hdc, hdp, htop, hfill]
      · simp [recordStackTrace, h1, h2, h3, hdc]

/-- C8: a name-list construction failure is non-fatal. Whenever the capture
records a trace and getCallStackFunctionNames fails (null handle), the call
still returns success with no pending exception, and funcNames_ ends up
absent; moreover, by recordStackTrace_namesOracleIrrelevant, a name-list
failure can never change the capture status, so it never aborts the
capture. -/
theorem recordStackTrace_namesFailureNonfatal
    (self : JSErrorState) (frames : List StackFrame) (skipTopFrame : Bool)
    (codeBlock : Option CodeBlock) (ipOffset : Nat) (oracle : AllocOracle)
    (st : List StackTraceInfo)
    (h0 : self.stacktrace = none)
    (h1 : (recordStackTrace self frames skipTopFrame codeBlock ipOffset
        oracle).error.stacktrace = some st)
    (hfail : getCallStackFunctionNames frames skipTopFrame oracle.namesCreateOk
        oracle.namesResizeOk = none) :
    (recordStackTrace self frames skipTopFrame codeBlock ipOffset oracle).status =
      ExecutionStatus.returned ∧
    (recordStackTrace self frames skipTopFrame codeBlock ipOffset
        oracle).error.funcNames = none ∧
    (recordStackTrace self frames skipTopFrame codeBlock ipOffset oracle).thrown =
      false := by
  have h1' : self.stacktrace.isSome = false := by simp [h0]
  by_cases h2 : (!skipTopFrame && codeBlock.isNone && topFrameHasCalleeCB frames) = true
  · have hred : recordStackTrace self frames skipTopFrame codeBlock ipOffset oracle =
        ⟨ExecutionStatus.returned, self, false⟩ := by
      simp [recordStackTrace, h1', h2]
    rw [hred] at h1
    simp [h0] at h1
  · by_cases h3 : oracle.domainsCreateOk = true
    · cases htop : topEntry skipTopFrame codeBlock ipOffset oracle.domainPushOk with
      | error e =>
        have hred : recordStackTrace self frames skipTopFrame codeBlock ipOffset oracle =
            ⟨ExecutionStatus.exception, self, true⟩ := by
          simp [recordStackTrace, h1', h2, h3, htop]
        rw [hred] at h1
        simp [h0] at h1
      | ok v =>
        obtain ⟨stack0, ds0, k0⟩ := v
        cases hfill : fillFrames oracle.domainPushOk frames stack0 ds0 k0 with
        | error e =>
          have hred : recordStackTrace self frames skipTopFrame codeBlock ipOffset oracle =
              ⟨ExecutionStatus.exception, self, true⟩ := by
            simp [recordStackTrace, h1', h2, h3, htop, hfill]
          rw [hred] at h1
          simp [h0] at h1
        | ok w =>
          obtain ⟨stack, ds, k⟩ := w
          have hred : recordStackTrace self frames skipTopFrame codeBlock ipOffset oracle =
              ⟨ExecutionStatus.returned,
               { self with
                   stacktrace := some stack.dropLast,
                   funcNames := getCallStackFunctionNames frames skipTopFrame
                     oracle.namesCreateOk oracle.namesResizeOk },
               false⟩ := by
            simp [recordStackTrace, h1', h2, h3, htop, hfill]
          rw [hred]
          simp [hfail]
    · have hred : recordStackTrace self frames skipTopFrame codeBlock ipOffset oracle =
          ⟨ExecutionStatus.exception, self, true⟩ := by
        simp [recordStackTrace, h1', h2, h3]
      rw [hred] at h1
      simp [h0] at h1

/-- C8 witness: with the names PropStorage creation failing, a two-frame
top-skipped capture still succeeds, records its one-entry trace, and leaves
funcNames_ absent. -/
theorem recordStackTrace_namesFailureNonfatal_witness :
    freshError.stacktrace = none ∧
    (recordStackTrace freshError [nativeFrame, nativeFrame] true none 0
        namesCreateFailOracle).error.stacktrace = some [⟨none, 0⟩] ∧
    getCallStackFunctionNames [nativeFrame, nativeFrame] true
        namesCreateFailOracle.namesCreateOk namesCreateFailOracle.namesResizeOk = none ∧
    ((recordStackTrace freshError [nativeFrame, nativeFrame] true none 0
        namesCreateFailOracle).status = ExecutionStatus.returned ∧
     (recordStackTrace freshError [nativeFrame, nativeFrame] true none 0
        namesCreateFailOracle).error.funcNames = none ∧
     (recordStackTrace freshError [nativeFrame, nativeFrame] true none 0
        namesCreateFailOracle).thrown = false) :=
  ⟨rfl, by decide, by decide,
   recordStackTrace_namesFailureNonfatal freshError [nativeFrame, nativeFrame] true
     none 0 namesCreateFailOracle [⟨none, 0⟩] rfl (by decide) (by decide)⟩

/-- The frame lines for n consecutive indices starting at s. -/
def frameChunks (trace : List StackTraceInfo) (funcNames : Option (List HValue)) :
    Nat → Nat → List String
  | _, 0 => []
  | s, m + 1 => frameBody trace funcNames s :: frameChunks trace funcNames (s + 1) m

/-- Loop exit: past the end of the trace nothing is appended. -/
theorem traceChunksFrom_stop (t : List StackTraceInfo) (f : Option (List HValue))
    (i : Nat) (h : t.length ≤ i) : traceChunksFrom t f i = [] := by
  unfold traceChunksFrom
  rw [dif_neg (by omega)]

/-- Loop step without truncation: every index is formatted. -/
theorem traceChunksFrom_plain (t : List StackTraceInfo) (f : Option (List HValue))
    (i : Nat) (h1 : i < t.length) (h2 : t.length ≤ 100) :
    traceChunksFrom t f i = frameBody t f i :: traceChunksFrom t f (i + 1) := by
  conv_lhs => rw [traceChunksFrom.eq_def]
  rw [dif_pos h1, dif_neg (by omega)]

/-- Loop step in the head segment of a truncated trace. -/
theorem traceChunksFrom_head (t : List StackTraceInfo) (f : Option (List HValue))
    (i : Nat) (h1 : 100 < t.length) (h2 : i < 50) :
    traceChunksFrom t f i = frameBody t f i :: traceChunksFrom t f (i + 1) := by
  conv_lhs => rw [traceChunksFrom.eq_def]
  rw [dif_pos (by omega), dif_pos h1, dif_neg (by omega), dif_neg (by omega)]

/-- Loop step at index 50 of a truncated trace: the skip line is appended
and the frame at index 50 is not formatted. -/
theorem traceChunksFrom_skip (t : List StackTraceInfo) (f : Option (List HValue))
    (h1 : 100 < t.length) :
    traceChunksFrom t f 50 = skipLine (t.length - 100) :: traceChunksFrom t f 51 := by
  conv_lhs => rw [traceChunksFrom.eq_def]
  rw [dif_pos (by omega), dif_pos h1, dif_pos rfl]

/-- Loop step in the skipped middle of a truncated trace: the index jumps to
length - 50 and that frame is formatted at once; the middle indices are
never visited. -/
theorem traceChunksFrom_jump (t : List StackTraceInfo) (f : Option (List HValue))
    (i : Nat) (h1 : 100 < t.length) (h2 : 50 < i) (h3 : i < t.length - 50) :
    traceChunksFrom t f i =
      frameBody t f (t.length - 50) :: traceChunksFrom t f (t.length - 50 + 1) := by
  conv_lhs => rw [traceChunksFrom.eq_def]
  rw [dif_pos (by omega), dif_pos h1, dif_neg (by omega), dif_pos ⟨h2, h3⟩]

/-- Loop step in the tail segment of a truncated trace. -/
theorem traceChunksFrom_tail (t : List StackTraceInfo) (f : Option (List HValue))
    (i : Nat) (h1 : 100 < t.length) (h2 : t.length - 50 ≤ i) (h3 : i < t.length) :
    traceChunksFrom t f i = frameBody t f i :: traceChunksFrom t f (i + 1) := by
  conv_lhs => rw [traceChunksFrom.eq_def]
  rw [dif_pos h3, dif_pos h1, dif_neg (by omega), dif_neg (by omega)]

/-- The head run of a truncated trace: indices i up to 49 are all formatted
normally. -/
theorem traceChunksFrom_headRun (t : List StackTraceInfo) (f : Option (List HValue))
    (h1 : 100 < t.length) :
    ∀ (n i : Nat), i + n = 50 →
      traceChunksFrom t f i = frameChunks t f i n ++ traceChunksFrom t f 50 := by
  intro n
  induction n with
  | zero =>
    intro i h
    have : i = 50 := by omega
    subst this
    simp [frameChunks]
  | succ m ih =>
    intro i h
    rw [traceChunksFrom_head t f i h1 (by omega), ih (i + 1) (by omega)]
    simp [frameChunks]

/-- The tail run of a truncated trace: the last 50 indices are all formatted
normally. -/
theorem traceChunksFrom_tailRun (t : List StackTraceInfo) (f : Option (List HValue))
    (h1 : 100 < t.length) :
    ∀ (n i : Nat), t.length - 50 ≤ i → i + n = t.length →
      traceChunksFrom t f i = frameChunks t f i n := by
  intro n
  induction n with
  | zero =>
    intro i hlo h
    rw [traceChunksFrom_stop t f i (by omega)]
    rfl
  | succ m ih =>
    intro i hlo h
    rw [traceChunksFrom_tail t f i h1 hlo (by omega), ih (i + 1) (by omega) (by omega)]
    rfl

/-- Without truncation every index of the trace is formatted. -/
theorem traceChunksFrom_allRun (t : List StackTraceInfo) (f : Option (List HValue))
    (hle : t.length ≤ 100) :
    ∀ (n i : Nat), i + n = t.length →
      traceChunksFrom t f i = frameChunks t f i n := by
  intro n
  induction n with
  | zero =>
    intro i h
    rw [traceChunksFrom_stop t f i (by omega)]
    rfl
  | succ m ih =>
    intro i h
    rw [traceChunksFrom_plain t f i (by omega) hle, ih (i + 1) (by omega)]
    rfl

/-- C6: for a trace of exactly 130 entries the frame loop emits the frame
lines of indices 0 through 49, then the single line skipping 30 frames, then
the frame lines of indices 80 through 129 (the 30 middle entries are never
formatted); every frame line starts with the at-prefix; and a trace of at
most 100 entries has every entry printed. -/
theorem constructStackTraceString_truncation :
    (∀ (t : List StackTraceInfo) (f : Option (List HValue)), t.length = 130 →
       stackTraceChunks t f =
         frameChunks t f 0 50 ++ skipLine 30 :: frameChunks t f 80 50) ∧
    (∀ (t : List StackTraceInfo) (f : Option (List HValue)) (i : Nat),
       ∃ rest, frameBody t f i = "\n    at " ++ rest) ∧
    skipLine 30 = "\n    ... skipping 30 frames" ∧
    (∀ (t : List StackTraceInfo) (f : Option (List HValue)), t.length ≤ 100 →
       stackTraceChunks t f = frameChunks t f 0 t.length) := by
  refine ⟨?_, ?_, ?_, ?_⟩
  · intro t f h
    have h1 : 100 < t.length := by omega
    unfold stackTraceChunks
    rw [traceChunksFrom_headRun t f h1 50 0 (by omega)]
    rw [traceChunksFrom_skip t f h1]
    rw [traceChunksFrom_jump t f 51 h1 (by omega) (by omega)]
    rw [traceChunksFrom_tailRun t f h1 49 (t.length - 50 + 1) (by omega) (by omega)]
    rw [h]
    norm_num
    rw [show frameChunks t f 80 50 = frameBody t f 80 :: frameChunks t f 81 49 from rfl]
  · intro t f i
    exact ⟨_, rfl⟩
  · rfl
  · intro t f hle
    exact traceChunksFrom_allRun t f hle t.length 0 (by omega)

/-- C6 witness: a synthetic trace of 130 native entries truncates exactly as
stated. -/
theorem constructStackTraceString_truncation_witness :
    (List.replicate 130 (default : StackTraceInfo)).length = 130 ∧
    stackTraceChunks (List.replicate 130 (default : StackTraceInfo)) none =
      frameChunks (List.replicate 130 (default : StackTraceInfo)) none 0 50 ++
        skipLine 30 ::
          frameChunks (List.replicate 130 (default : StackTraceInfo)) none 80 50 :=
  ⟨by simp, constructStackTraceString_truncation.1 _ none (by simp)⟩

/-- C9: invoking the stack setter on an error instance with any value v
discards the captured trace (stacktrace_ released), redefines "stack" as a
plain non-enumerable value slot holding exactly v with no validation or
coercion, and returns undefined; every subsequent read of the stack property
yields exactly v and never a recomputed trace, whatever trace had been
captured before. -/
theorem errorStackSetter_overridesCapture (e : ErrorObj) (v : JSValue) :
    ∃ e1,
      errorStackSetter (Receiver.error e) v =
        ⟨ExecutionStatus.returned, some JSValue.undefined, Receiver.error e1,
          some (StackSlot.plain v false)⟩ ∧
      e1.err.stacktrace = none ∧
      e1.stackProp = StackSlot.plain v false ∧
      ∀ (stringCreateOk debuggerEnabled : Bool),
        readStackProp e1 stringCreateOk debuggerEnabled =
          (ExecutionStatus.returned, some v) :=
  ⟨_, rfl, rfl, rfl, fun _ _ => rfl⟩

/-- C10 counterexample: the receiver null or undefined is not an error
instance, yet the stack setter raises (toObject throws a TypeError on it),
so the setter does not return success for every non-error receiver. -/
theorem errorStackSetter_nullReceiver_cex :
    Receiver.nullOrUndefined.isErrorInst = false ∧
    errorStackSetter Receiver.nullOrUndefined (JSValue.string "x") =
      ⟨ExecutionStatus.exception, none, Receiver.nullOrUndefined, none⟩ := by
  decide

/-- C10 (amended): for every non-error receiver other than null or undefined
the stack setter does not raise: it skips the trace disposal, defines a
plain non-enumerable "stack" slot holding exactly the given value on
toObject(receiver), and returns undefined; the getter, by contrast, raises a
type error on every non-error receiver. -/
theorem errorStackSetter_nonErrorReceiver (recv : Receiver) (v : JSValue)
    (h1 : recv.isErrorInst = false) (h2 : recv ≠ Receiver.nullOrUndefined) :
    (errorStackSetter recv v).status = ExecutionStatus.returned ∧
    (errorStackSetter recv v).ret = some JSValue.undefined ∧
    (errorStackSetter recv v).definedSlot = some (StackSlot.plain v false) ∧
    ∀ (stringCreateOk debuggerEnabled : Bool),
      (errorStackGetter recv stringCreateOk debuggerEnabled).status =
        ExecutionStatus.exception := by
  cases recv with
  | error e => simp [Receiver.isErrorInst] at h1
  | object o => exact ⟨rfl, rfl, rfl, fun _ _ => rfl⟩
  | primitive p => exact ⟨rfl, rfl, rfl, fun _ _ => rfl⟩
  | nullOrUndefined => exact absurd rfl h2

/-- C10 witness: a number receiver is wrapped by toObject and receives the
plain non-enumerable slot, while the getter raises on it. -/
theorem errorStackSetter_nonErrorReceiver_witness :
    (Receiver.primitive (JSValue.number 3)).isErrorInst = false ∧
    Receiver.primitive (JSValue.number 3) ≠ Receiver.nullOrUndefined ∧
    (errorStackSetter (Receiver.primitive (JSValue.number 3))
        (JSValue.string "s")).status = ExecutionStatus.returned :=
  ⟨by decide, by decide,
   (errorStackSetter_nonErrorReceiver (Receiver.primitive (JSValue.number 3))
      (JSValue.string "s") (by decide) (by decide)).1⟩

end JSErrorVM
